import Mathlib

/-!
Shallow embedding of the concurrent research orchestration core of the
Deep-Research-Agents repository:

* `src/lib/orchestration/temperature_manager.py` — profile registry
  (temperature configurations and the intensity classifier);
* `src/lib/orchestration/research_executor.py` — worker pool preparation,
  concurrent fan-out, trace extraction and result synthesis;
* `src/lib/orchestration/parallel_research_plugin.py` — plugin entry point.

Python floats are modelled as rationals (the decimal literals appearing in the
source are exact in `ℚ` and their order relations agree with the binary-float
ones at every comparison the code performs).  Python `None`/absence is
`Option`, raised exceptions are `Except String` carrying `str(e)`, and external
collaborators (project configuration, the model-call substrate, the scheduler)
are explicit parameters.
-/

namespace DeepResearch

/-- Mirror of an `AgentTemperatureConfig` entry returned by
`ProjectConfig.get_agent_config` (fields `temp` and `approach`). -/
structure AgentTemperatureConfig where
  temp : ℚ
  approach : String
deriving DecidableEq, Repr

/-- Mirror of the `{"temp": ..., "approach": ..., "agent_suffix": ...}`
dictionaries built by `TemperatureManager`.  `temp = none` models
Python `None`. -/
structure TempConfig where
  temp : Option ℚ
  approach : String
  agent_suffix : String
deriving DecidableEq, Repr

/-- Mirror of the project-configuration collaborator
(`lib/config/project_config.py`) as seen from the orchestration core:
`agents` models `get_agent_config` (a `None` result is `none`),
`error_template` models `get_error_template` (missing key gives `""`),
`quality_indicators` models `get_quality_indicators` (missing key gives `[]`). -/
structure ProjectCfg where
  agents : String → Option AgentTemperatureConfig
  error_template : String → String
  quality_indicators : String → List String

/-- State of the `get_project_config` collaborator at the call sites guarded by
`try ... except`: the import failed (`get_project_config is None`), the lookup
raises, or a configuration object is available. -/
inductive ConfigState
  | unavailable
  | raises
  | available (cfg : ProjectCfg)

/-- The executor's `self.project_config` field: `__init__` stores the loaded
configuration, or `None` when the loader is missing or raises. -/
def execProjectConfig : ConfigState → Option ProjectCfg
  | .available cfg => some cfg
  | _ => none

/-- Python `str.upper`, character-wise (all names uppercased by the source
are ASCII). -/
def pyUpper (s : String) : String := ⟨s.data.map Char.toUpper⟩

/-- Python `str.lower`, character-wise (all names lowercased by the source
are ASCII). -/
def pyLower (s : String) : String := ⟨s.data.map Char.toLower⟩

namespace TemperatureManager

/-- Mirror of `TemperatureManager._get_default_temperature_configs`. -/
def get_default_temperature_configs : List TempConfig :=
  [⟨some (2/10), "Conservative detailed analysis", "CONSERVATIVE"⟩,
   ⟨some (6/10), "Balanced analysis", "BALANCED"⟩,
   ⟨some (9/10), "Creative divergent thinking", "CREATIVE"⟩]

/-- Mirror of `TemperatureManager._get_project_temperature_configs`:
iterates `['conservative', 'balanced', 'creative']` in order, keeping the
entries the configuration supplies; falls back to the defaults when the
collaborator is unavailable, raises, or supplies no entry at all. -/
def get_project_temperature_configs (cs : ConfigState) : List TempConfig :=
  match cs with
  | .unavailable => get_default_temperature_configs
  | .raises => get_default_temperature_configs
  | .available cfg =>
      let configs := ["conservative", "balanced", "creative"].filterMap
        (fun agent_type => (cfg.agents agent_type).map
          (fun ac => TempConfig.mk (some ac.temp) ac.approach (pyUpper agent_type)))
      if configs.isEmpty then get_default_temperature_configs else configs

/-- Mirror of `TemperatureManager.get_temperature_configs`. -/
def get_temperature_configs (cs : ConfigState)
    (use_temperature_variation : Bool) : List TempConfig :=
  if use_temperature_variation then
    get_project_temperature_configs cs
  else
    [⟨none, "Standard analysis", "1"⟩,
     ⟨none, "Standard analysis", "2"⟩,
     ⟨none, "Standard analysis", "3"⟩]

/-- Mirror of `TemperatureManager._get_temperature_type_from_value`. -/
def get_temperature_type_from_value (temperature : ℚ) : String :=
  if temperature ≤ 3/10 then "conservative"
  else if temperature ≤ 7/10 then "balanced"
  else "creative"

/-- Mirror of `TemperatureManager.get_agent_name`. -/
def get_agent_name (suffix : String) : String :=
  "RESEARCHER_" ++ suffix

end TemperatureManager

/-- Whether `pat` is a prefix of `s`, on character lists. -/
def listStartsWith : List Char → List Char → Bool
  | [], _ => true
  | _ :: _, [] => false
  | a :: as, b :: bs => a == b && listStartsWith as bs

/-- Whether `pat` occurs inside `s`, on character lists. -/
def listOccurs (pat : List Char) : List Char → Bool
  | [] => pat.isEmpty
  | b :: bs => listStartsWith pat (b :: bs) || listOccurs pat bs

/-- Python substring test `pat in s`. -/
def strContains (s pat : String) : Bool :=
  listOccurs pat.data s.data

/-- Model of a `ChatCompletionAgent` as constructed by the orchestration core.
`id` models Python object identity (each construction allocates a fresh one);
`plugins` models the kernel's plugin-name table; `temp` and `approach` record
the temperature configuration the agent was built from (they determine its
instructions and description in `_create_research_agent`). -/
structure Agent where
  id : ℕ
  name : String
  temp : Option ℚ
  approach : String
  plugins : List String
deriving DecidableEq, Repr

namespace ResearchExecutor

/-- Mirror of `ResearchExecutor._create_research_agent`.  The Azure OpenAI
service collaborator is the first thing the method obtains; `svcErr = some e`
models that call raising (so no agent is produced), `none` models success.
`fresh` is the next free object identity; the successor is returned. -/
def create_research_agent (svcErr : Option String) (fresh : ℕ)
    (config_dict : TempConfig) (memory_plugin : Bool) :
    Except String (Agent × ℕ) :=
  match svcErr with
  | some e => .error e
  | none =>
      .ok (⟨fresh,
            TemperatureManager.get_agent_name config_dict.agent_suffix,
            config_dict.temp,
            config_dict.approach,
            "ModularSearchPlugin" :: (if memory_plugin then ["MemoryPlugin"] else [])⟩,
           fresh + 1)

/-- Mirror of `ResearchExecutor._has_memory_plugin`: an empty plugin table
fails the guard, otherwise some plugin name must be `MemoryPlugin`, `Memory`,
or contain `memory` case-insensitively. -/
def has_memory_plugin (agent : Agent) : Bool :=
  if agent.plugins.isEmpty then false
  else agent.plugins.any (fun plugin_name =>
    plugin_name = "MemoryPlugin" ∨ plugin_name = "Memory"
      ∨ strContains (pyLower plugin_name) "memory")

/-- The `for i in range(...)` construction loop of `_prepare_agents`
(both the Variation-mode rebuild and the Standard-mode top-up): for each index
`i` it reads `temperature_configs[i]` (an out-of-range read raises Python's
`IndexError`, whose `str` is `"list index out of range"`) and appends a freshly
constructed agent. -/
def createAgentsFrom (svcErr : Option String) (cfgs : List TempConfig)
    (memory_plugin : Bool) :
    ℕ → List ℕ → Except String (List Agent × ℕ)
  | fresh, [] => .ok ([], fresh)
  | fresh, i :: rest =>
      match cfgs.get? i with
      | none => .error "list index out of range"
      | some cfg =>
          match create_research_agent svcErr fresh cfg memory_plugin with
          | .error e => .error e
          | .ok (a, f') =>
              match createAgentsFrom svcErr cfgs memory_plugin f' rest with
              | .error e => .error e
              | .ok (as_, f'') => .ok (a :: as_, f'')

/-- The Standard-mode repair loop of `_prepare_agents`: for each reused index,
an agent that fails the `_has_memory_plugin` presence query is replaced
in place by a freshly constructed agent (with memory); all other entries are
left untouched. -/
def repairAgents (svcErr : Option String) (cfgs : List TempConfig) :
    ℕ → List Agent → List ℕ → Except String (List Agent × ℕ)
  | fresh, pool, [] => .ok (pool, fresh)
  | fresh, pool, i :: rest =>
      match pool.get? i with
      | none => .error "list index out of range"
      | some a =>
          if has_memory_plugin a then
            repairAgents svcErr cfgs fresh pool rest
          else
            match cfgs.get? i with
            | none => .error "list index out of range"
            | some cfg =>
                match create_research_agent svcErr fresh cfg true with
                | .error e => .error e
                | .ok (na, f') => repairAgents svcErr cfgs f' (pool.set i na) rest

/-- Mirror of `ResearchExecutor._prepare_agents`.  The Python method mutates
the `research_agents` list in place and returns the slice
`research_agents[:target_count]`; the result here is
`(returned slice, mutated pool, next fresh identity)`. -/
def prepare_agents (svcErr : Option String) (fresh : ℕ) (research_agents : List Agent)
    (use_temperature_variation memory_plugin : Bool)
    (cfgs : List TempConfig) (target_count : ℕ) :
    Except String (List Agent × List Agent × ℕ) :=
  if use_temperature_variation then
    if research_agents.length ≠ target_count then
      match createAgentsFrom svcErr cfgs memory_plugin fresh (List.range target_count) with
      | .error e => .error e
      | .ok (ags, f') => .ok (ags.take target_count, ags, f')
    else
      .ok (research_agents.take target_count, research_agents, fresh)
  else
    if research_agents.length ≥ target_count then
      if memory_plugin then
        match repairAgents svcErr cfgs fresh research_agents (List.range target_count) with
        | .error e => .error e
        | .ok (p', f') => .ok (p'.take target_count, p', f')
      else
        .ok (research_agents.take target_count, research_agents, fresh)
    else
      match createAgentsFrom svcErr cfgs memory_plugin fresh
          (List.range' research_agents.length (target_count - research_agents.length)) with
      | .error e => .error e
      | .ok (ags, f') =>
          .ok ((research_agents ++ ags).take target_count, research_agents ++ ags, f')

end ResearchExecutor

/-- Renders a rational the way Python's `str` renders the corresponding float,
for the terminating decimals the orchestration code handles (`str(0.2)` is
`"0.2"`, `str(2.0)` is `"2.0"`): integer part, then the fractional digits by
long division (with ample fuel; every temperature in the source terminates). -/
def fracDigits : ℕ → ℕ → ℕ → List Char
  | 0, _, _ => []
  | _ + 1, 0, _ => []
  | fuel + 1, r, d => Char.ofNat (48 + (r * 10) / d) :: fracDigits fuel ((r * 10) % d) d

/-- Python `str` of a float value held here as a rational (see `fracDigits`). -/
def pyFloatStr (q : ℚ) : String :=
  if q.den = 1 then toString q.num ++ ".0"
  else
    (if q < 0 then "-" else "")
      ++ toString (q.num.natAbs / q.den) ++ "."
      ++ String.mk (fracDigits 30 (q.num.natAbs % q.den) q.den)

/-- Python `str` of an optional temperature (`str(None)` is `"None"`). -/
def optTempStr : Option ℚ → String
  | none => "None"
  | some q => pyFloatStr q

/-- Python truthiness of a `getattr(item, 'id', None)` value: `None` and the
empty string are falsy. -/
def optTruthy : Option String → Bool
  | none => false
  | some s => s ≠ ""

/-- Items carried by one message of a worker's trace, as destructured by
`_process_agent_response`: an item with `function_name` and `arguments`
attributes is a tool call, else one with `result` and `function_name` is a
tool result.  All values are modelled post-`str`. -/
inductive TraceItem
  | toolCall (function_name arguments : String) (id : Option String)
  | toolResult (function_name result : String) (id : Option String)
deriving DecidableEq, Repr

/-- One message of a worker's trace: `content` is its text (`""` models a
falsy/absent content), `items` its tool-call/tool-result items. -/
structure Msg where
  content : String
  items : List TraceItem
deriving DecidableEq, Repr

/-- The value returned by the agent-runtime collaborator
(`agent.get_response`): an optional thread carrying the trace messages,
a point at which iterating the thread raises (`iterFail = some k` models
`thread.get_messages()` failing after `k` messages), and the direct
`response.content` fallback text (`""` models falsy/absent). -/
structure Response where
  thread : Option (List Msg)
  iterFail : Option ℕ
  content : String
deriving DecidableEq, Repr

namespace ResearchExecutor

/-- The parts appended while iterating one message in
`_process_agent_response`: its content when truthy, then a
`[Function Result from ...]` block for each tool-result item. -/
def msgParts (m : Msg) : List String :=
  (if m.content ≠ "" then [m.content] else []) ++
    m.items.filterMap (fun item =>
      match item with
      | .toolCall _ _ _ => none
      | .toolResult function_name result _ =>
          some ("\n[Function Result from " ++ function_name ++ "]\n" ++ result ++ "\n"))

/-- The tool calls collected while iterating the trace messages. -/
def collectToolCalls (msgs : List Msg) : List (String × String × Option String) :=
  msgs.flatMap (fun m => m.items.filterMap (fun item =>
    match item with
    | .toolCall function_name arguments id => some (function_name, arguments, id)
    | .toolResult _ _ _ => none))

/-- The tool results collected while iterating the trace messages. -/
def collectToolResults (msgs : List Msg) : List (String × String × Option String) :=
  msgs.flatMap (fun m => m.items.filterMap (fun item =>
    match item with
    | .toolCall _ _ _ => none
    | .toolResult function_name result id => some (function_name, result, id)))

/-- The `[Tool Calls Executed: ...]` summary part appended after the message
loop when any tool call was seen (arguments truncated to 100 characters). -/
def toolCallsBlock (tcs : List (String × String × Option String)) : List String :=
  if tcs.isEmpty then []
  else
    ["\n[Tool Calls Executed: " ++ toString tcs.length ++ " functions]\n"
      ++ String.join (tcs.map (fun tc =>
          "- Function: " ++ tc.1 ++ "\n"
            ++ "  Arguments: " ++ tc.2.1.take 100 ++ "...\n"
            ++ (if optTruthy tc.2.2 then "  ID: " ++ tc.2.2.getD "" ++ "\n" else "")))]

/-- The `[Tool Results: ...]` summary part appended after the message loop
when any tool result was seen. -/
def toolResultsBlock (trs : List (String × String × Option String)) : List String :=
  if trs.isEmpty then []
  else
    ["\n[Tool Results: " ++ toString trs.length ++ " results received]\n"
      ++ String.join (trs.map (fun tr =>
          "- Function: " ++ tr.1 ++ "\n"
            ++ "  Result length: " ++ toString tr.2.1.length ++ " chars\n"
            ++ (if optTruthy tr.2.2 then "  ID: " ++ tr.2.2.getD "" ++ "\n" else "")))]

/-- Mirror of `ResearchExecutor._process_agent_response` (its returned
`final_content`): with a thread, joins per-message parts and the two summary
blocks; if iterating the thread raises after `k` messages, falls back to the
direct response content appended to what was already collected; with no
thread, the direct content or the fixed placeholder. -/
def process_agent_response (agentName : String) (resp : Response) : String :=
  match resp.thread with
  | some msgs =>
      match resp.iterFail with
      | none =>
          String.join ((msgs.flatMap msgParts)
            ++ toolCallsBlock (collectToolCalls msgs)
            ++ toolResultsBlock (collectToolResults msgs))
      | some k =>
          String.join (((msgs.take k).flatMap msgParts)
            ++ (if resp.content ≠ "" then [resp.content] else []))
  | none =>
      if resp.content ≠ "" then resp.content
      else "No content generated by " ++ agentName

/-- Mirror of lines 176–182 of `_run_single_agent_with_thread`: the extracted
text, defaulted to the fixed placeholder when falsy.  This is the spec's
`Extract(trace, workerLabel)`. -/
def extract (agentName : String) (resp : Response) : String :=
  let final_content := process_agent_response agentName resp
  if final_content ≠ "" then final_content
  else "No content generated by " ++ agentName

/-- Mirror of `ResearchExecutor._run_single_agent_with_thread`: the whole turn
runs inside `try`; a raised exception is caught in this task and converted to
the `ERROR in <name>: <text>` string.  `turn` is the agent-runtime
collaborator's outcome for this worker's single user turn. -/
def run_single_agent_with_thread (agent : Agent) (turn : Except String Response) : String :=
  match turn with
  | .error e => "ERROR in " ++ agent.name ++ ": " ++ e
  | .ok resp => extract agent.name resp

end ResearchExecutor

/-- One entry of the list `asyncio.gather(..., return_exceptions=True)` hands
to `_synthesize_results`: either an `Exception` object that escaped its task
(`exn e` with `str` text `e`) or a task's returned string. -/
inductive SynthInput
  | exn (text : String)
  | txt (s : String)
deriving DecidableEq, Repr

namespace ResearchExecutor

/-- The parts `_synthesize_results` emits for the `i`-th (1-based) gathered
result, given `temp_config = temperature_configs[i-1]`. -/
def workerBlock (use_temperature_variation : Bool) (cfg : TempConfig)
    (i : ℕ) (r : SynthInput) : List String :=
  match r with
  | .exn e =>
      if use_temperature_variation then
        ["### 🌡️ Temperature " ++ optTempStr cfg.temp ++ " - " ++ cfg.approach,
         "**Error**: " ++ e]
      else
        ["## Research Perspective " ++ toString i ++ " - RESEARCHER" ++ toString i,
         "Error: " ++ e]
  | .txt s =>
      if use_temperature_variation then
        ["### 🌡️ Temperature " ++ optTempStr cfg.temp ++ " - " ++ cfg.approach,
         "**Approach**: " ++ cfg.approach,
         "**Research Results**:",
         if s ≠ "" then s else "No content generated",
         ""]
      else
        ["## Research Perspective " ++ toString i ++ " - RESEARCHER" ++ toString i,
         if s ≠ "" then s else "No content generated"]

/-- The `for i, agent_result in enumerate(results, 1)` loop of
`_synthesize_results`: each iteration reads `temperature_configs[i - 1]`
(an out-of-range read raises, aborting the whole synthesis — `none`). -/
def synthBlocks (use_temperature_variation : Bool) (cfgs : List TempConfig) :
    ℕ → List SynthInput → Option (List String)
  | _, [] => some []
  | i, r :: rest =>
      match cfgs.get? (i - 1) with
      | none => none
      | some cfg =>
          (synthBlocks use_temperature_variation cfgs (i + 1) rest).map
            (fun bs => workerBlock use_temperature_variation cfg i r ++ bs)

/-- The mode-specific header parts of `_synthesize_results`. -/
def synthPreamble (use_temperature_variation : Bool) (user_input : String) : List String :=
  if use_temperature_variation then
    ["# 🌡️ Temperature Variation Parallel Research Results - Lead Researcher Analysis",
     "## Research Query",
     user_input ++ "\n",
     "## Temperature Variation Approach",
     "Executed diverse analytical approaches from conservative to creative using different temperature settings.\n"]
  else
    ["# Comprehensive Research Results - Lead Researcher Analysis (ThreadPool Parallel)",
     "## Executive Summary",
     "Integrated results from parallel investigation by 3 research agents.\n"]

/-- The conclusion parts of `_synthesize_results`: in Variation mode the
Quality Indicators come from the project configuration when it was loaded
(`indicator.format(agent_count=...)` modelled as placeholder replacement),
else from the hardcoded fallback bullets. -/
def synthTrailer (use_temperature_variation : Bool) (cfgs : List TempConfig)
    (project_config : Option ProjectCfg) : List String :=
  if use_temperature_variation then
    ["\n## 🎯 Temperature Variation Integrated Analysis",
     "Integrating the results from diverse analytical approaches using different temperature settings to provide comprehensive analysis and recommendations.",
     "",
     "### Research Quality Indicators"]
      ++ (match project_config with
          | some pc =>
              (pc.quality_indicators "temperature_variation").map
                (fun indicator =>
                  "- " ++ indicator.replace "{agent_count}" (toString cfgs.length))
          | none =>
              ["- ✅ Temperature Variation: 0.2(conservative) → 0.6(balanced) → 0.9(creative)",
               "- ✅ Parallel Agents: " ++ toString cfgs.length ++ " agents concurrent execution",
               "- ✅ Internal Document Search: ModularSearchPlugin integration",
               "- ✅ Diverse Approaches: Optimized analysis breadth and depth",
               "- ✅ Source Citations: Complete citation information for all results"])
  else
    ["\n## Integrated Analysis and Recommendations",
     "Integrating the multiple research results above to provide comprehensive analysis and recommendations."]

/-- The `synthesized_parts` list built by `_synthesize_results` (before the
final `"\n".join`). -/
def synthesize_parts (results : List SynthInput) (cfgs : List TempConfig)
    (user_input : String) (use_temperature_variation : Bool)
    (project_config : Option ProjectCfg) : Option (List String) :=
  (synthBlocks use_temperature_variation cfgs 1 results).map
    (fun blocks =>
      synthPreamble use_temperature_variation user_input
        ++ blocks
        ++ synthTrailer use_temperature_variation cfgs project_config)

/-- Mirror of `ResearchExecutor._synthesize_results`. -/
def synthesize_results (results : List SynthInput) (cfgs : List TempConfig)
    (user_input : String) (use_temperature_variation : Bool)
    (project_config : Option ProjectCfg) : Option String :=
  (synthesize_parts results cfgs user_input use_temperature_variation
      project_config).map (String.intercalate "\n")

/-- Mirror of `ResearchExecutor._get_error_message`: uses the configuration's
template when one is loaded and non-empty (with `str.format` on the two named
fields modelled as placeholder replacement), else the hardcoded mode-specific
template. -/
def get_error_message (project_config : Option ProjectCfg)
    (user_input error : String) (use_temperature_variation : Bool) : String :=
  let hardcoded :=
    if use_temperature_variation then
      "# 🌡️ Temperature Variation Parallel Research - Error\n\n## Research Query\n"
        ++ user_input
        ++ "\n\n## Error\nAn error occurred during temperature variation parallel research agent execution: "
        ++ error
    else
      "# Lead Researcher Analysis (ThreadPool Parallel)\n\n## Research Query\n"
        ++ user_input
        ++ "\n\n## Error\nAn error occurred during parallel research agent execution: "
        ++ error
  match project_config with
  | some cfg =>
      let template := cfg.error_template
        (if use_temperature_variation then "temperature_variation" else "standard_parallel")
      if template ≠ "" then
        (template.replace "{user_input}" user_input).replace "{error_message}" error
      else hardcoded
  | none => hardcoded

/-- The fan-out of `execute_concurrent_research`: one task per prepared agent,
each wrapping its own worker turn (`_run_single_agent_with_thread`), listed in
launch order. -/
def runBatch (agents : List Agent) (turn : ℕ → Except String Response) : List String :=
  agents.enum.map (fun p => run_single_agent_with_thread p.2 (turn p.1))

/-- The completion log of the fan-out: the scheduler finishes the tasks in the
order given by `ord`; each completion records the task's launch index and its
(string) outcome. -/
def completionLog (tasks : List String) (ord : List ℕ) : List (ℕ × String) :=
  ord.filterMap (fun i => (tasks.get? i).map (fun r => (i, r)))

/-- What `asyncio.gather` guarantees: from the completion log, results are
re-assembled indexed by launch position, not by completion order. -/
def gatherByIndex (tasks : List String) (ord : List ℕ) : List SynthInput :=
  (List.range tasks.length).map (fun j =>
    match (completionLog tasks ord).find? (fun p => p.1 == j) with
    | some p => SynthInput.txt p.2
    | none => SynthInput.txt "")

/-- Mirror of `ResearchExecutor.execute_concurrent_research`.  Pool
preparation happens before the `try` block, so its exception propagates to
the caller; everything from task construction (where Variation mode reads
`temperature_configs[i]["temp"]`, raising if out of range) through synthesis
is inside the `try`, whose handler returns `_get_error_message`.
`asyncio.gather` returns per-task outcomes in launch order (`gatherByIndex`
recovers exactly this from any completion schedule, proved separately). -/
def execute_concurrent_research (svcErr : Option String)
    (turn : ℕ → Except String Response) (cs : ConfigState)
    (fresh : ℕ) (research_agents : List Agent) (user_input : String)
    (use_temperature_variation memory_plugin : Bool) : Except String String :=
  let cfgs := TemperatureManager.get_temperature_configs cs use_temperature_variation
  match prepare_agents svcErr fresh research_agents use_temperature_variation
      memory_plugin cfgs 3 with
  | .error e => .error e
  | .ok (agents_to_use, _, _) =>
      if use_temperature_variation && decide (cfgs.length < agents_to_use.length) then
        .ok (get_error_message (execProjectConfig cs) user_input
              "list index out of range" use_temperature_variation)
      else
        let results := (runBatch agents_to_use turn).map SynthInput.txt
        match synthesize_results results cfgs user_input use_temperature_variation
            (execProjectConfig cs) with
        | some s => .ok s
        | none =>
            .ok (get_error_message (execProjectConfig cs) user_input
                  "list index out of range" use_temperature_variation)

end ResearchExecutor

/-- The hardcoded fallback template of
`ParallelResearchPlugin.execute_parallel_research`. -/
def functionCallErrorTemplate (query e : String) : String :=
  "# Function Call Parallel Research - Error\n\n## Research Query\n" ++ query
    ++ "\n\n## Error\nError occurred during parallel research execution: " ++ e
    ++ "\n\n## Status\nError occurred during parallel research execution via function calling. Please fallback to direct execution mode.\n"

/-- Mirror of `ParallelResearchPlugin.execute_parallel_research`: runs the
concurrent research with temperature variation; any exception that escapes the
executor (only pool preparation can raise there) is caught here and turned
into the plugin's own fallback template.  This entry point never raises. -/
def execute_parallel_research (svcErr : Option String)
    (turn : ℕ → Except String Response) (cs : ConfigState)
    (fresh : ℕ) (research_agents : List Agent) (memory_plugin : Bool)
    (query : String) : String :=
  match ResearchExecutor.execute_concurrent_research svcErr turn cs fresh
      research_agents query true memory_plugin with
  | .ok s => s
  | .error e => functionCallErrorTemplate query e

/-! Concrete collaborator instances used as test inputs below. -/

/-- A project configuration supplying an agent configuration for `balanced`
only (a proper non-empty subset of the three agent types). -/
def balancedOnlyCfg : ProjectCfg :=
  ⟨fun t => if t = "balanced" then some ⟨1/2, "Moderate analysis"⟩ else none,
   fun _ => "", fun _ => []⟩

/-- A project configuration supplying all three agent configurations. -/
def fullCfg : ProjectCfg :=
  ⟨fun t =>
    if t = "conservative" then some ⟨1/10, "Careful"⟩
    else if t = "balanced" then some ⟨1/2, "Moderate"⟩
    else if t = "creative" then some ⟨1, "Bold"⟩
    else none,
   fun _ => "", fun _ => []⟩

/-- An agent-runtime collaborator on which every worker turn succeeds with a
one-message trace. -/
def turnOkAll : ℕ → Except String Response :=
  fun i => .ok ⟨some [⟨"content " ++ toString i, []⟩], none, ""⟩

/-- An agent-runtime collaborator on which worker 1 (the Balanced worker in
Variation mode) raises `timeout` and the other workers succeed. -/
def turnBalancedTimeout : ℕ → Except String Response :=
  fun i => if i = 1 then .error "timeout" else turnOkAll i

/-- The worker pool produced by a first Variation-mode preparation from the
default temperature configurations (fresh identities 0, 1, 2). -/
def variationPool : List Agent :=
  [⟨0, "RESEARCHER_CONSERVATIVE", some (2/10), "Conservative detailed analysis",
    ["ModularSearchPlugin", "MemoryPlugin"]⟩,
   ⟨1, "RESEARCHER_BALANCED", some (6/10), "Balanced analysis",
    ["ModularSearchPlugin", "MemoryPlugin"]⟩,
   ⟨2, "RESEARCHER_CREATIVE", some (9/10), "Creative divergent thinking",
    ["ModularSearchPlugin", "MemoryPlugin"]⟩]

/-- A project configuration supplying all three Variation agent
configurations, with the temperatures written as raw rational values
(numerator/denominator form, so that the whole pipeline evaluates by kernel
reduction). -/
def varCfgLit : ProjectCfg :=
  ⟨fun t =>
    if t = "conservative" then
      some ⟨(⟨1, 5, by decide, by decide⟩ : ℚ), "Conservative detailed analysis"⟩
    else if t = "balanced" then
      some ⟨(⟨3, 5, by decide, by decide⟩ : ℚ), "Balanced analysis"⟩
    else if t = "creative" then
      some ⟨(⟨9, 10, by decide, by decide⟩ : ℚ), "Creative divergent thinking"⟩
    else none,
   fun _ => "", fun _ => []⟩

/-- A standard-mode pool of three agents in which the middle agent lacks the
memory capability. -/
def standardPoolOneBroken : List Agent :=
  [⟨10, "RESEARCHER_1", none, "Standard analysis", ["ModularSearchPlugin", "MemoryPlugin"]⟩,
   ⟨11, "RESEARCHER_2", none, "Standard analysis", ["ModularSearchPlugin"]⟩,
   ⟨12, "RESEARCHER_3", none, "Standard analysis", ["ModularSearchPlugin", "MemoryPlugin"]⟩]

/-! Helper lemmas. -/

theorem append_ne_empty_of_left (s t : String) (hs : s.length ≠ 0) : s ++ t ≠ "" := by
  intro h
  have h2 : s.length + t.length = ("" : String).length := by
    rw [← String.length_append, h]
  have h3 : ("" : String).length = 0 := rfl
  rw [h3] at h2
  omega

theorem extract_ne_empty (label : String) (resp : Response) :
    ResearchExecutor.extract label resp ≠ "" := by
  by_cases h : ResearchExecutor.process_agent_response label resp = ""
  · simp [ResearchExecutor.extract, h]
    exact append_ne_empty_of_left _ _ (by decide)
  · simp [ResearchExecutor.extract, h]

theorem run_single_ne_empty (agent : Agent) (turn : Except String Response) :
    ResearchExecutor.run_single_agent_with_thread agent turn ≠ "" := by
  cases turn with
  | error e =>
      show ("ERROR in " ++ agent.name ++ ": " ++ e) ≠ ""
      apply append_ne_empty_of_left
      rw [String.length_append, String.length_append]
      have h : ("ERROR in " : String).length = 9 := rfl
      omega
  | ok resp => exact extract_ne_empty agent.name resp

/-! Claim theorems. -/

/-- C8: the intensity-to-profile-type classification is deterministic with
thresholds `t ≤ 0.3 → Conservative`, `0.3 < t ≤ 0.7 → Balanced`,
`t > 0.7 → Creative`, and on the boundary inputs `0.3`, `0.30001`, `0.7`,
`0.70001` it yields conservative, balanced, balanced, creative. -/
theorem classify_intensity_thresholds :
    (∀ t : ℚ,
      (t ≤ 3/10 → TemperatureManager.get_temperature_type_from_value t = "conservative")
      ∧ (3/10 < t → t ≤ 7/10 →
          TemperatureManager.get_temperature_type_from_value t = "balanced")
      ∧ (7/10 < t → TemperatureManager.get_temperature_type_from_value t = "creative"))
    ∧ TemperatureManager.get_temperature_type_from_value (3/10) = "conservative"
    ∧ TemperatureManager.get_temperature_type_from_value (30001/100000) = "balanced"
    ∧ TemperatureManager.get_temperature_type_from_value (7/10) = "balanced"
    ∧ TemperatureManager.get_temperature_type_from_value (70001/100000) = "creative" := by
  refine ⟨fun t => ⟨?_, ?_, ?_⟩, ?_, ?_, ?_, ?_⟩
  · intro h
    rw [TemperatureManager.get_temperature_type_from_value, if_pos h]
  · intro h1 h2
    rw [TemperatureManager.get_temperature_type_from_value, if_neg (by linarith), if_pos h2]
  · intro h
    rw [TemperatureManager.get_temperature_type_from_value,
      if_neg (by linarith), if_neg (by linarith)]
  · norm_num [TemperatureManager.get_temperature_type_from_value]
  · norm_num [TemperatureManager.get_temperature_type_from_value]
  · norm_num [TemperatureManager.get_temperature_type_from_value]
  · norm_num [TemperatureManager.get_temperature_type_from_value]

/-- Witness for C8: the classifier applied at concrete points in each band. -/
theorem classify_intensity_thresholds_witness :
    TemperatureManager.get_temperature_type_from_value (1/5) = "conservative"
    ∧ TemperatureManager.get_temperature_type_from_value (1/2) = "balanced"
    ∧ TemperatureManager.get_temperature_type_from_value (4/5) = "creative" :=
  ⟨(classify_intensity_thresholds.1 (1/5)).1 (by norm_num),
   (classify_intensity_thresholds.1 (1/2)).2.1 (by norm_num) (by norm_num),
   (classify_intensity_thresholds.1 (4/5)).2.2 (by norm_num)⟩

/-- Counterexample to C9: when the configuration is available but supplies an
agent configuration for `balanced` only, `GetProfiles(Variation)` returns one
profile, not three, and its intensity and description come from the
configuration, not the hardcoded triple. -/
theorem variation_profiles_can_be_fewer_than_three :
    TemperatureManager.get_temperature_configs (.available balancedOnlyCfg) true
      = [⟨some (1/2), "Moderate analysis", "BALANCED"⟩]
    ∧ (TemperatureManager.get_temperature_configs (.available balancedOnlyCfg) true).length
        ≠ 3 := by
  exact ⟨rfl, by decide⟩

/-- C9 (amended): Standard mode always yields the three no-intensity profiles
labelled 1, 2, 3; Variation mode yields the hardcoded default triple
(Conservative 0.2, Balanced 0.6, Creative 0.9) when configuration is
unavailable or raises, and the configuration-supplied entries (its
intensities and descriptions) in conservative–balanced–creative order when
the configuration supplies all three. -/
theorem get_profiles_modes :
    (∀ cs, TemperatureManager.get_temperature_configs cs false =
      [⟨none, "Standard analysis", "1"⟩,
       ⟨none, "Standard analysis", "2"⟩,
       ⟨none, "Standard analysis", "3"⟩])
    ∧ TemperatureManager.get_temperature_configs .unavailable true =
        [⟨some (2/10), "Conservative detailed analysis", "CONSERVATIVE"⟩,
         ⟨some (6/10), "Balanced analysis", "BALANCED"⟩,
         ⟨some (9/10), "Creative divergent thinking", "CREATIVE"⟩]
    ∧ TemperatureManager.get_temperature_configs .raises true =
        [⟨some (2/10), "Conservative detailed analysis", "CONSERVATIVE"⟩,
         ⟨some (6/10), "Balanced analysis", "BALANCED"⟩,
         ⟨some (9/10), "Creative divergent thinking", "CREATIVE"⟩]
    ∧ (∀ (cfg : ProjectCfg) (ac1 ac2 ac3 : AgentTemperatureConfig),
        cfg.agents "conservative" = some ac1 →
        cfg.agents "balanced" = some ac2 →
        cfg.agents "creative" = some ac3 →
        TemperatureManager.get_temperature_configs (.available cfg) true =
          [⟨some ac1.temp, ac1.approach, "CONSERVATIVE"⟩,
           ⟨some ac2.temp, ac2.approach, "BALANCED"⟩,
           ⟨some ac3.temp, ac3.approach, "CREATIVE"⟩]) := by
  refine ⟨fun cs => rfl, rfl, rfl, ?_⟩
  intro cfg ac1 ac2 ac3 h1 h2 h3
  simp [TemperatureManager.get_temperature_configs,
    TemperatureManager.get_project_temperature_configs, h1, h2, h3]
  refine ⟨?_, ?_, ?_⟩ <;> decide

/-- Witness for C9 (amended): the fully-populated configuration case. -/
theorem get_profiles_modes_witness :
    TemperatureManager.get_temperature_configs (.available fullCfg) true =
      [⟨some (1/10), "Careful", "CONSERVATIVE"⟩,
       ⟨some (1/2), "Moderate", "BALANCED"⟩,
       ⟨some 1, "Bold", "CREATIVE"⟩] :=
  get_profiles_modes.2.2.2 fullCfg ⟨1/10, "Careful"⟩ ⟨1/2, "Moderate"⟩ ⟨1, "Bold"⟩
    rfl rfl rfl

/-- C5: extraction is total and never empty: on every response shape it
returns a non-empty string; on an empty trace (and on an iteration error with
no salvageable content) it returns exactly the placeholder
`No content generated by <workerLabel>`; and the task wrapper around it is
likewise never empty (internal errors degrade to non-empty text). -/
theorem extract_total_nonempty :
    (∀ (label : String) (resp : Response), ResearchExecutor.extract label resp ≠ "")
    ∧ (∀ label : String,
        ResearchExecutor.extract label ⟨some [], none, ""⟩
          = "No content generated by " ++ label)
    ∧ (∀ (label : String) (k : ℕ),
        ResearchExecutor.extract label ⟨some [], some k, ""⟩
          = "No content generated by " ++ label)
    ∧ (∀ (agent : Agent) (turn : Except String Response),
        ResearchExecutor.run_single_agent_with_thread agent turn ≠ "") := by
  refine ⟨extract_ne_empty, ?_, ?_, run_single_ne_empty⟩
  · intro label
    rfl
  · intro label k
    simp [ResearchExecutor.extract, ResearchExecutor.process_agent_response]
    intro h
    exact absurd rfl h

/-- Witness for C5: the placeholder on a concrete empty trace. -/
theorem extract_total_nonempty_witness :
    ResearchExecutor.extract "RESEARCHER_1" ⟨some [], none, ""⟩
      = "No content generated by " ++ "RESEARCHER_1" :=
  extract_total_nonempty.2.1 "RESEARCHER_1"

/-- Counterexample to C3: two successive Variation-mode preparations with
identical arguments return the *same* worker identities the second time, not
entirely new ones — once the pool size equals the target the existing workers
are reused regardless of their profiles. -/
theorem variation_prepare_reuses_existing_pool :
    ResearchExecutor.prepare_agents none 0 [] true true
        (TemperatureManager.get_temperature_configs .unavailable true) 3
      = .ok (variationPool, variationPool, 3)
    ∧ ResearchExecutor.prepare_agents none 3 variationPool true true
        (TemperatureManager.get_temperature_configs .unavailable true) 3
      = .ok (variationPool, variationPool, 3)
    ∧ variationPool.map Agent.id = [0, 1, 2] :=
  ⟨rfl, rfl, rfl⟩

/-- C3 (amended): Variation-mode preparation recreates the pool exactly when
its size differs from `targetCount` — then all existing workers are discarded
and `targetCount` fresh workers bound to the Variation profiles in order are
constructed; when the size already equals `targetCount` the existing workers
are returned unchanged (same identities), so a second identical Variation
preparation reuses rather than recreates. -/
theorem prepare_variation_amended (fresh : ℕ) (pool : List Agent) (mem : Bool)
    (c0 c1 c2 : TempConfig) :
    (pool.length ≠ 3 →
      ∃ a0 a1 a2 : Agent,
        ResearchExecutor.create_research_agent none fresh c0 mem = .ok (a0, fresh + 1)
        ∧ ResearchExecutor.create_research_agent none (fresh + 1) c1 mem = .ok (a1, fresh + 2)
        ∧ ResearchExecutor.create_research_agent none (fresh + 2) c2 mem = .ok (a2, fresh + 3)
        ∧ ResearchExecutor.prepare_agents none fresh pool true mem [c0, c1, c2] 3
            = .ok ([a0, a1, a2], [a0, a1, a2], fresh + 3)
        ∧ a0.id = fresh ∧ a1.id = fresh + 1 ∧ a2.id = fresh + 2
        ∧ a0.temp = c0.temp ∧ a1.temp = c1.temp ∧ a2.temp = c2.temp)
    ∧ (pool.length = 3 →
        ResearchExecutor.prepare_agents none fresh pool true mem [c0, c1, c2] 3
          = .ok (pool, pool, fresh)) := by
  constructor
  · intro h
    refine ⟨_, _, _, rfl, rfl, rfl, ?_, rfl, rfl, rfl, rfl, rfl, rfl⟩
    have hr : List.range 3 = [0, 1, 2] := rfl
    simp [ResearchExecutor.prepare_agents, h, hr,
      ResearchExecutor.createAgentsFrom, ResearchExecutor.create_research_agent]
  · intro h
    simp [ResearchExecutor.prepare_agents, h, List.take_of_length_le (le_of_eq h)]

/-- Witness for C3 (amended): recreation from an empty pool. -/
theorem prepare_variation_amended_witness :
    ∃ a0 a1 a2 : Agent,
      ResearchExecutor.create_research_agent none 0
          ⟨some (2/10), "Conservative detailed analysis", "CONSERVATIVE"⟩ true
        = .ok (a0, 0 + 1)
      ∧ ResearchExecutor.create_research_agent none (0 + 1)
          ⟨some (6/10), "Balanced analysis", "BALANCED"⟩ true
        = .ok (a1, 0 + 2)
      ∧ ResearchExecutor.create_research_agent none (0 + 2)
          ⟨some (9/10), "Creative divergent thinking", "CREATIVE"⟩ true
        = .ok (a2, 0 + 3)
      ∧ ResearchExecutor.prepare_agents none 0 [] true true
          [⟨some (2/10), "Conservative detailed analysis", "CONSERVATIVE"⟩,
           ⟨some (6/10), "Balanced analysis", "BALANCED"⟩,
           ⟨some (9/10), "Creative divergent thinking", "CREATIVE"⟩] 3
          = .ok ([a0, a1, a2], [a0, a1, a2], 0 + 3)
      ∧ a0.id = 0 ∧ a1.id = 0 + 1 ∧ a2.id = 0 + 2
      ∧ a0.temp = some (2/10) ∧ a1.temp = some (6/10) ∧ a2.temp = some (9/10) :=
  (prepare_variation_amended 0 [] true
    ⟨some (2/10), "Conservative detailed analysis", "CONSERVATIVE"⟩
    ⟨some (6/10), "Balanced analysis", "BALANCED"⟩
    ⟨some (9/10), "Creative divergent thinking", "CREATIVE"⟩).1 (by decide)

/-- Counterexample to C4: when pool preparation raises, the executor-level run
re-raises (it does not return a template), and the plugin entry point returns
its own generic function-call template, which is not the mode-specific
template of `_get_error_message`. -/
theorem prep_failure_yields_plugin_template :
    ResearchExecutor.execute_concurrent_research (some "boom") turnOkAll .unavailable
        0 [] "Q" true true = .error "boom"
    ∧ execute_parallel_research (some "boom") turnOkAll .unavailable 0 [] true "Q"
        = functionCallErrorTemplate "Q" "boom"
    ∧ functionCallErrorTemplate "Q" "boom"
        ≠ ResearchExecutor.get_error_message none "Q" "boom" true :=
  ⟨rfl, rfl, by decide⟩

/-- C4 (amended): if pool preparation throws, the executor performs no
synthesis and propagates the error; the plugin-level entry point (a total
function — it never throws) catches it and returns the single generic
function-call fallback template, which embeds the query text and the error
message verbatim and contains no per-worker section; the mode-specific
`_get_error_message` templates are reserved for errors raised after
preparation. -/
theorem prep_failure_amended (svcErr : Option String)
    (turn : ℕ → Except String Response) (cs : ConfigState) (fresh : ℕ)
    (pool : List Agent) (mem : Bool) (query e : String)
    (hprep : ResearchExecutor.prepare_agents svcErr fresh pool true mem
        (TemperatureManager.get_temperature_configs cs true) 3 = .error e) :
    ResearchExecutor.execute_concurrent_research svcErr turn cs fresh pool query true mem
      = .error e
    ∧ execute_parallel_research svcErr turn cs fresh pool mem query
        = functionCallErrorTemplate query e := by
  have h1 : ResearchExecutor.execute_concurrent_research svcErr turn cs fresh pool
      query true mem = .error e := by
    simp [ResearchExecutor.execute_concurrent_research, hprep]
  refine ⟨h1, ?_⟩
  unfold execute_parallel_research
  rw [h1]

/-- Witness for C4 (amended): a concrete preparation failure. -/
theorem prep_failure_amended_witness :
    ResearchExecutor.execute_concurrent_research (some "wiring failed") turnOkAll .raises
        0 [] "Q2" true true = .error "wiring failed"
    ∧ execute_parallel_research (some "wiring failed") turnOkAll .raises 0 [] true "Q2"
        = functionCallErrorTemplate "Q2" "wiring failed" :=
  prep_failure_amended (some "wiring failed") turnOkAll .raises 0 [] true "Q2"
    "wiring failed" rfl

theorem filterMap_eq_filter_map {α β : Type} (f : α → Option β) (g : α → β)
    (p : α → Bool) (l : List α) (hp : ∀ a, (f a).isSome = p a)
    (hg : ∀ a b, f a = some b → b = g a) :
    l.filterMap f = (l.filter p).map g := by
  induction l with
  | nil => rfl
  | cons a l ih =>
      cases h : f a with
      | none =>
          have hpa : p a = false := by rw [← hp a, h]; rfl
          simp [List.filterMap_cons, List.filter_cons, h, hpa, ih]
      | some b =>
          have hpa : p a = true := by rw [← hp a, h]; rfl
          simp [List.filterMap_cons, List.filter_cons, h, hpa, ih, hg a b h]

/-- C10: with configuration available, the Variation profile list is exactly
the configured subset's entries in the fixed conservative–balanced–creative
order (possibly fewer than 3); the hardcoded default triple appears only when
the subset is empty or the configuration lookup raises. -/
theorem variation_profiles_config_subset (cfg : ProjectCfg) :
    ((∃ t ∈ ["conservative", "balanced", "creative"], (cfg.agents t).isSome) →
      TemperatureManager.get_temperature_configs (.available cfg) true
        = (["conservative", "balanced", "creative"].filter
            (fun t => (cfg.agents t).isSome)).map
            (fun t => ⟨(cfg.agents t).map AgentTemperatureConfig.temp,
                       ((cfg.agents t).map AgentTemperatureConfig.approach).getD "",
                       pyUpper t⟩))
    ∧ ((∀ t ∈ ["conservative", "balanced", "creative"], cfg.agents t = none) →
        TemperatureManager.get_temperature_configs (.available cfg) true
          = TemperatureManager.get_default_temperature_configs)
    ∧ TemperatureManager.get_temperature_configs .raises true
        = TemperatureManager.get_default_temperature_configs := by
  refine ⟨?_, ?_, rfl⟩
  · rintro ⟨t, ht, hsome⟩
    obtain ⟨ac, hac⟩ := Option.isSome_iff_exists.mp hsome
    have hmem : (⟨some ac.temp, ac.approach, pyUpper t⟩ : TempConfig) ∈
        (["conservative", "balanced", "creative"].filterMap
          (fun agent_type => (cfg.agents agent_type).map
            (fun a => TempConfig.mk (some a.temp) a.approach (pyUpper agent_type)))) := by
      rw [List.mem_filterMap]
      exact ⟨t, ht, by rw [hac]; rfl⟩
    have hne : (["conservative", "balanced", "creative"].filterMap
        (fun agent_type => (cfg.agents agent_type).map
          (fun a => TempConfig.mk (some a.temp) a.approach (pyUpper agent_type)))).isEmpty
        = false := by
      rcases h : List.filterMap _ _ with _ | ⟨x, xs⟩
      · rw [h] at hmem; simp at hmem
      · rfl
    rw [TemperatureManager.get_temperature_configs,
      TemperatureManager.get_project_temperature_configs]
    simp only [if_true, hne, Bool.false_eq_true, if_false]
    apply filterMap_eq_filter_map
    · intro a
      cases h : cfg.agents a <;> simp [h]
    intro a b hb
    rw [Option.map_eq_some'] at hb
    obtain ⟨x, hx, rfl⟩ := hb
    rw [hx]
    rfl
  · intro h
    have h1 := h "conservative" (by simp)
    have h2 := h "balanced" (by simp)
    have h3 := h "creative" (by simp)
    simp [TemperatureManager.get_temperature_configs,
      TemperatureManager.get_project_temperature_configs, h1, h2, h3]

/-- Witness for C10: the balanced-only configuration. -/
theorem variation_profiles_config_subset_witness :
    TemperatureManager.get_temperature_configs (.available balancedOnlyCfg) true
      = (["conservative", "balanced", "creative"].filter
          (fun t => (balancedOnlyCfg.agents t).isSome)).map
          (fun t => ⟨(balancedOnlyCfg.agents t).map AgentTemperatureConfig.temp,
                     ((balancedOnlyCfg.agents t).map AgentTemperatureConfig.approach).getD "",
                     pyUpper t⟩) :=
  (variation_profiles_config_subset balancedOnlyCfg).1 ⟨"balanced", by decide, by decide⟩

theorem createAgentsFrom_ok (cfgs : List TempConfig) (mem : Bool) :
    ∀ (idx : List ℕ) (fresh : ℕ), (∀ i ∈ idx, i < cfgs.length) →
      ∃ ags f', ResearchExecutor.createAgentsFrom none cfgs mem fresh idx = .ok (ags, f')
        ∧ ags.length = idx.length := by
  intro idx
  induction idx with
  | nil => exact fun fresh _ => ⟨[], fresh, rfl, rfl⟩
  | cons i rest ih =>
      intro fresh h
      have hi : i < cfgs.length := h i (by simp)
      cases hcfg : cfgs.get? i with
      | none => rw [List.get?_eq_none] at hcfg; omega
      | some cfg =>
          have hcfg2 : cfgs[i]? = some cfg := by rw [← List.get?_eq_getElem?]; exact hcfg
          obtain ⟨ags, f', heq, hlen⟩ := ih (fresh + 1) (fun j hj => h j (by simp [hj]))
          refine ⟨(⟨fresh, TemperatureManager.get_agent_name cfg.agent_suffix,
            cfg.temp, cfg.approach,
            "ModularSearchPlugin" :: (if mem then ["MemoryPlugin"] else [])⟩ : Agent) :: ags,
            f', ?_, by simp [hlen]⟩
          simp [ResearchExecutor.createAgentsFrom, hcfg2,
            ResearchExecutor.create_research_agent, heq]

theorem repairAgents_spec (cfgs : List TempConfig) :
    ∀ (idx : List ℕ) (fresh : ℕ) (pool : List Agent),
      idx.Nodup → (∀ i ∈ idx, i < pool.length ∧ i < cfgs.length) →
      ∃ p' f', ResearchExecutor.repairAgents none cfgs fresh pool idx = .ok (p', f')
        ∧ p'.length = pool.length
        ∧ (∀ j, j ∉ idx → p'.get? j = pool.get? j)
        ∧ (∀ j a, j ∈ idx → pool.get? j = some a →
            ResearchExecutor.has_memory_plugin a = true → p'.get? j = some a)
        ∧ (∀ j a, j ∈ idx → pool.get? j = some a →
            ResearchExecutor.has_memory_plugin a = false →
            ∃ b, p'.get? j = some b ∧ fresh ≤ b.id
              ∧ b.plugins = ["ModularSearchPlugin", "MemoryPlugin"]) := by
  intro idx
  induction idx with
  | nil =>
      intro fresh pool _ _
      exact ⟨pool, fresh, rfl, rfl, fun j _ => rfl, by simp, by simp⟩
  | cons i rest ih =>
      intro fresh pool hnd hbound
      have hi := hbound i (by simp)
      have hrestnd : rest.Nodup := (List.nodup_cons.mp hnd).2
      have hinotin : i ∉ rest := (List.nodup_cons.mp hnd).1
      cases hget : pool.get? i with
      | none => rw [List.get?_eq_none] at hget; omega
      | some a =>
          have hget2 : pool[i]? = some a := by rw [← List.get?_eq_getElem?]; exact hget
          cases hma : ResearchExecutor.has_memory_plugin a with
          | true =>
              obtain ⟨p', f', heq, hlen, hout, hkeep, hrep⟩ :=
                ih fresh pool hrestnd (fun j hj => hbound j (by simp [hj]))
              refine ⟨p', f', ?_, hlen, ?_, ?_, ?_⟩
              · simp [ResearchExecutor.repairAgents, hget2, hma, heq]
              · intro j hj
                exact hout j (fun hjr => hj (by simp [hjr]))
              · intro j a' hj ha' hmema'
                rcases List.mem_cons.mp hj with hji | hjr
                · subst hji
                  rw [hget] at ha'
                  cases ha'
                  rw [hout j hinotin, hget]
                · exact hkeep j a' hjr ha' hmema'
              · intro j a' hj ha' hmema'
                rcases List.mem_cons.mp hj with hji | hjr
                · subst hji
                  rw [hget] at ha'
                  cases ha'
                  rw [hma] at hmema'
                  cases hmema'
                · exact hrep j a' hjr ha' hmema'
          | false =>
              cases hcfg : cfgs.get? i with
              | none => rw [List.get?_eq_none] at hcfg; omega
              | some cfg =>
                  have hcfg2 : cfgs[i]? = some cfg := by
                    rw [← List.get?_eq_getElem?]; exact hcfg
                  obtain ⟨p', f', heq, hlen, hout, hkeep, hrep⟩ :=
                    ih (fresh + 1) (pool.set i
                      ⟨fresh, TemperatureManager.get_agent_name cfg.agent_suffix,
                       cfg.temp, cfg.approach, ["ModularSearchPlugin", "MemoryPlugin"]⟩)
                      hrestnd
                      (fun j hj => by
                        have := hbound j (by simp [hj])
                        simpa [List.length_set] using this)
                  refine ⟨p', f', ?_, by rw [hlen, List.length_set], ?_, ?_, ?_⟩
                  · simp [ResearchExecutor.repairAgents, hget2, hma, hcfg2,
                      ResearchExecutor.create_research_agent, heq]
                  · intro j hj
                    have hji : j ≠ i := fun hcontra => hj (by simp [hcontra])
                    rw [hout j (fun hjr => hj (by simp [hjr])),
                      List.get?_set_ne _ _ (Ne.symm hji)]
                  · intro j a' hj ha' hmema'
                    rcases List.mem_cons.mp hj with hji | hjr
                    · subst hji
                      rw [hget] at ha'
                      cases ha'
                      rw [hma] at hmema'
                      cases hmema'
                    · have hji : i ≠ j := fun hcontra => hinotin (hcontra ▸ hjr)
                      have := hkeep j a' hjr (by rw [List.get?_set_ne _ _ hji, ha']) hmema'
                      exact this
                  · intro j a' hj ha' hmema'
                    rcases List.mem_cons.mp hj with hji | hjr
                    · subst hji
                      refine ⟨⟨fresh, TemperatureManager.get_agent_name cfg.agent_suffix,
                        cfg.temp, cfg.approach, ["ModularSearchPlugin", "MemoryPlugin"]⟩,
                        ?_, le_refl fresh, rfl⟩
                      rw [hout j hinotin, List.get?_set_eq_of_lt _ hi.1]
                    · have hji : i ≠ j := fun hcontra => hinotin (hcontra ▸ hjr)
                      obtain ⟨b, hb, hbid, hbplug⟩ :=
                        hrep j a' hjr (by rw [List.get?_set_ne _ _ hji, ha']) hmema'
                      exact ⟨b, hb, by omega, hbplug⟩

/-- C7: Standard-mode preparation with a memory capability available: with a
pool of at least 3 workers, the first 3 are reused; a reused worker that fails
the memory-capability presence query is rebuilt with the full capability set
(search plus memory, a fresh identity) while every other worker entry is left
untouched; with a pool of fewer than 3 workers, only the missing ones are
constructed, appended after the existing ones, which keep their identity. -/
theorem prepare_standard_reuse_and_repair (fresh : ℕ) (pool : List Agent)
    (cfgs : List TempConfig) (hcf : 3 ≤ cfgs.length) :
    ((3 ≤ pool.length) →
      ∃ p' f', ResearchExecutor.prepare_agents none fresh pool false true cfgs 3
          = .ok (p'.take 3, p', f')
        ∧ p'.length = pool.length
        ∧ (∀ j, 3 ≤ j → p'.get? j = pool.get? j)
        ∧ (∀ j a, j < 3 → pool.get? j = some a →
            ResearchExecutor.has_memory_plugin a = true → p'.get? j = some a)
        ∧ (∀ j a, j < 3 → pool.get? j = some a →
            ResearchExecutor.has_memory_plugin a = false →
            ∃ b, p'.get? j = some b ∧ fresh ≤ b.id
              ∧ b.plugins = ["ModularSearchPlugin", "MemoryPlugin"]
              ∧ ResearchExecutor.has_memory_plugin b = true))
    ∧ (pool.length < 3 →
        ∃ ags f', ResearchExecutor.prepare_agents none fresh pool false true cfgs 3
            = .ok (pool ++ ags, pool ++ ags, f')
          ∧ ags.length = 3 - pool.length
          ∧ (pool ++ ags).take pool.length = pool) := by
  constructor
  · intro hge
    obtain ⟨p', f', heq, hlen, hout, hkeep, hrep⟩ :=
      repairAgents_spec cfgs (List.range 3) fresh pool (List.nodup_range 3)
        (fun i hi => by
          have h3 : i < 3 := List.mem_range.mp hi
          exact ⟨by omega, by omega⟩)
    refine ⟨p', f', ?_, hlen, ?_, ?_, ?_⟩
    · simp [ResearchExecutor.prepare_agents, hge, heq]
    · intro j hj
      exact hout j (by rw [List.mem_range]; omega)
    · intro j a hj ha hmem
      exact hkeep j a (List.mem_range.mpr hj) ha hmem
    · intro j a hj ha hmem
      obtain ⟨b, hb, hbid, hbplug⟩ := hrep j a (List.mem_range.mpr hj) ha hmem
      refine ⟨b, hb, hbid, hbplug, ?_⟩
      simp [ResearchExecutor.has_memory_plugin, hbplug]
  · intro hlt
    obtain ⟨ags, f', heq, hlen⟩ :=
      createAgentsFrom_ok cfgs true (List.range' pool.length (3 - pool.length)) fresh
        (fun i hi => by
          have := List.mem_range'_1.mp hi
          omega)
    have hlen' : ags.length = 3 - pool.length := by
      rw [hlen]; simp [List.length_range']
    have htot : (pool ++ ags).length = 3 := by
      rw [List.length_append, hlen']; omega
    refine ⟨ags, f', ?_, hlen', ?_⟩
    · have hnotge : ¬ 3 ≤ pool.length := by omega
      simp [ResearchExecutor.prepare_agents, hnotge, heq,
        List.take_of_length_le (le_of_eq htot)]
    · exact List.take_left pool ags

/-- Witness for C7: a pool of three standard agents whose middle agent lacks
the memory plugin. -/
theorem prepare_standard_reuse_and_repair_witness :
    ∃ p' f', ResearchExecutor.prepare_agents none 20 standardPoolOneBroken false true
        (TemperatureManager.get_temperature_configs .unavailable false) 3
        = .ok (p'.take 3, p', f')
      ∧ p'.length = standardPoolOneBroken.length
      ∧ (∀ j, 3 ≤ j → p'.get? j = standardPoolOneBroken.get? j)
      ∧ (∀ j a, j < 3 → standardPoolOneBroken.get? j = some a →
          ResearchExecutor.has_memory_plugin a = true → p'.get? j = some a)
      ∧ (∀ j a, j < 3 → standardPoolOneBroken.get? j = some a →
          ResearchExecutor.has_memory_plugin a = false →
          ∃ b, p'.get? j = some b ∧ 20 ≤ b.id
            ∧ b.plugins = ["ModularSearchPlugin", "MemoryPlugin"]
            ∧ ResearchExecutor.has_memory_plugin b = true) :=
  (prepare_standard_reuse_and_repair 20 standardPoolOneBroken
    (TemperatureManager.get_temperature_configs .unavailable false)
    (by decide)).1 (by decide)

theorem gatherByIndex_perm (tasks : List String) (ord : List ℕ)
    (hperm : ord.Perm (List.range tasks.length)) :
    ResearchExecutor.gatherByIndex tasks ord = tasks.map SynthInput.txt := by
  apply List.ext_get?
  intro j
  by_cases hj : j < tasks.length
  · obtain ⟨r, hr⟩ : ∃ r, tasks.get? j = some r := by
      rw [List.get?_eq_getElem?]
      exact ⟨tasks[j], List.getElem?_eq_getElem hj⟩
    have hjord : j ∈ ord := hperm.mem_iff.mpr (List.mem_range.mpr hj)
    have hlog : ((j, r) : ℕ × String) ∈ ResearchExecutor.completionLog tasks ord := by
      rw [ResearchExecutor.completionLog, List.mem_filterMap]
      exact ⟨j, hjord, by rw [hr]; rfl⟩
    have hsome : ((ResearchExecutor.completionLog tasks ord).find?
        (fun p => p.1 == j)).isSome := by
      rw [List.find?_isSome]
      exact ⟨(j, r), hlog, by simp⟩
    obtain ⟨p, hfind⟩ := Option.isSome_iff_exists.mp hsome
    have hp1 : p.1 = j := by
      have := List.find?_some hfind
      simpa using this
    have hpmem := List.mem_of_find?_eq_some hfind
    rw [ResearchExecutor.completionLog, List.mem_filterMap] at hpmem
    obtain ⟨i, _, hpi⟩ := hpmem
    have hp2 : p.2 = r := by
      cases hpi2 : tasks.get? i with
      | none => rw [hpi2] at hpi; cases hpi
      | some r2 =>
          rw [hpi2] at hpi
          cases hpi
          simp only [] at hp1
          rw [← hp1] at hr
          rw [hpi2] at hr
          cases hr
          rfl
    rw [ResearchExecutor.gatherByIndex, List.get?_map,
      List.get?_map, hr]
    have hrange : (List.range tasks.length).get? j = some j := by
      simp [List.get?_eq_getElem?, List.getElem?_range hj]
    rw [hrange]
    simp [hfind, hp2]
  · rw [ResearchExecutor.gatherByIndex, List.get?_map, List.get?_map]
    have h1 : (List.range tasks.length).get? j = none := by
      rw [List.get?_eq_none]
      simpa using not_lt.mp hj
    have h2 : tasks.get? j = none := by
      rw [List.get?_eq_none]
      exact not_lt.mp hj
    rw [h1, h2]
    rfl

theorem synthBlocks_three (m : Bool) (cfgs : List TempConfig)
    (k0 k1 k2 : TempConfig) (r0 r1 r2 : SynthInput)
    (h0 : cfgs.get? 0 = some k0) (h1 : cfgs.get? 1 = some k1)
    (h2 : cfgs.get? 2 = some k2) :
    ResearchExecutor.synthBlocks m cfgs 1 [r0, r1, r2]
      = some (ResearchExecutor.workerBlock m k0 1 r0
          ++ ResearchExecutor.workerBlock m k1 2 r1
          ++ ResearchExecutor.workerBlock m k2 3 r2) := by
  rw [List.get?_eq_getElem?] at h0 h1 h2
  simp [ResearchExecutor.synthBlocks, h0, h1, h2]

/-- C1: for both modes, synthesis of three gathered results produces exactly
the three per-worker sections in worker-index order — the parts list is the
mode preamble, then the block built from result 0, then from result 1, then
from result 2, then the trailer — and the gathered result list itself is in
launch-index order for every completion-order permutation of the three
concurrent tasks. -/
theorem synthesis_sections_in_worker_index_order (m : Bool) (q : String)
    (pc : Option ProjectCfg) (k0 k1 k2 : TempConfig) (r0 r1 r2 : String)
    (ord : List ℕ) (hperm : ord.Perm (List.range 3)) :
    ResearchExecutor.gatherByIndex [r0, r1, r2] ord
      = [SynthInput.txt r0, SynthInput.txt r1, SynthInput.txt r2]
    ∧ ResearchExecutor.synthesize_parts
        [SynthInput.txt r0, SynthInput.txt r1, SynthInput.txt r2] [k0, k1, k2] q m pc
        = some (ResearchExecutor.synthPreamble m q
            ++ ResearchExecutor.workerBlock m k0 1 (SynthInput.txt r0)
            ++ ResearchExecutor.workerBlock m k1 2 (SynthInput.txt r1)
            ++ ResearchExecutor.workerBlock m k2 3 (SynthInput.txt r2)
            ++ ResearchExecutor.synthTrailer m [k0, k1, k2] pc) := by
  constructor
  · exact gatherByIndex_perm [r0, r1, r2] ord (by simpa using hperm)
  · rw [ResearchExecutor.synthesize_parts,
      synthBlocks_three m [k0, k1, k2] k0 k1 k2 _ _ _ rfl rfl rfl]
    simp [List.append_assoc]

/-- Witness for C1: a completion order in which worker 2 finishes first. -/
theorem synthesis_sections_in_worker_index_order_witness :
    ResearchExecutor.gatherByIndex ["A", "B", "C"] [2, 0, 1]
      = [SynthInput.txt "A", SynthInput.txt "B", SynthInput.txt "C"]
    ∧ ResearchExecutor.synthesize_parts
        [SynthInput.txt "A", SynthInput.txt "B", SynthInput.txt "C"]
        (TemperatureManager.get_temperature_configs .unavailable false) "X" false none
        = some (ResearchExecutor.synthPreamble false "X"
            ++ ResearchExecutor.workerBlock false ⟨none, "Standard analysis", "1"⟩ 1
                (SynthInput.txt "A")
            ++ ResearchExecutor.workerBlock false ⟨none, "Standard analysis", "2"⟩ 2
                (SynthInput.txt "B")
            ++ ResearchExecutor.workerBlock false ⟨none, "Standard analysis", "3"⟩ 3
                (SynthInput.txt "C")
            ++ ResearchExecutor.synthTrailer false
                (TemperatureManager.get_temperature_configs .unavailable false) none) :=
  synthesis_sections_in_worker_index_order false "X" none
    ⟨none, "Standard analysis", "1"⟩ ⟨none, "Standard analysis", "2"⟩
    ⟨none, "Standard analysis", "3"⟩ "A" "B" "C" [2, 0, 1] (by decide)

theorem synthesize_results_isSome (m : Bool) (cfgs : List TempConfig) (q : String)
    (pc : Option ProjectCfg) (x0 x1 x2 : SynthInput) (k0 k1 k2 : TempConfig)
    (h0 : cfgs.get? 0 = some k0) (h1 : cfgs.get? 1 = some k1)
    (h2 : cfgs.get? 2 = some k2) :
    ResearchExecutor.synthesize_results [x0, x1, x2] cfgs q m pc
      = some (String.intercalate "\n"
          (ResearchExecutor.synthPreamble m q
            ++ (ResearchExecutor.workerBlock m k0 1 x0
              ++ ResearchExecutor.workerBlock m k1 2 x1
              ++ ResearchExecutor.workerBlock m k2 3 x2)
            ++ ResearchExecutor.synthTrailer m cfgs pc)) := by
  rw [ResearchExecutor.synthesize_results, ResearchExecutor.synthesize_parts,
    synthBlocks_three m cfgs k0 k1 k2 x0 x1 x2 h0 h1 h2]
  rfl

theorem executor_ok_of_prepare_ok (turn : ℕ → Except String Response)
    (cs : ConfigState) (fresh : ℕ) (pool : List Agent) (query : String)
    (m mem : Bool) (ags pl : List Agent) (f' : ℕ)
    (hprep : ResearchExecutor.prepare_agents none fresh pool m mem
        (TemperatureManager.get_temperature_configs cs m) 3 = .ok (ags, pl, f'))
    (hlen : ags.length = 3)
    (hcf : 3 ≤ (TemperatureManager.get_temperature_configs cs m).length) :
    ∃ s, ResearchExecutor.execute_concurrent_research none turn cs fresh pool query m mem
      = .ok s := by
  have hblen : (ResearchExecutor.runBatch ags turn).length = 3 := by
    simp [ResearchExecutor.runBatch]
    exact hlen
  obtain ⟨x0, x1, x2, hx⟩ := List.length_eq_three.mp hblen
  have h0 : (TemperatureManager.get_temperature_configs cs m).get? 0
      = some ((TemperatureManager.get_temperature_configs cs m).get ⟨0, by omega⟩) :=
    List.get?_eq_get (by omega)
  have h1 : (TemperatureManager.get_temperature_configs cs m).get? 1
      = some ((TemperatureManager.get_temperature_configs cs m).get ⟨1, by omega⟩) :=
    List.get?_eq_get (by omega)
  have h2 : (TemperatureManager.get_temperature_configs cs m).get? 2
      = some ((TemperatureManager.get_temperature_configs cs m).get ⟨2, by omega⟩) :=
    List.get?_eq_get (by omega)
  have hguard : (m && decide ((TemperatureManager.get_temperature_configs cs m).length
      < ags.length)) = false := by
    have : ¬ ((TemperatureManager.get_temperature_configs cs m).length < ags.length) := by
      omega
    simp [this]
  have hfinal := synthesize_results_isSome m
    (TemperatureManager.get_temperature_configs cs m) query (execProjectConfig cs)
    (.txt x0) (.txt x1) (.txt x2) _ _ _ h0 h1 h2
  apply Exists.intro
  simp only [ResearchExecutor.execute_concurrent_research, hprep, hguard,
    Bool.false_eq_true, if_false, hx, List.map_cons, List.map_nil]
  rw [hfinal]

/-- C2: a failure raised while running one worker's turn is caught inside that
worker's own task and converted into that worker's `ERROR in <name>: <text>`
result; every other worker's result is exactly what it would have been without
the failure, the batch result list keeps one entry per worker, and the batch
as a whole still returns a full synthesized report. -/
theorem worker_failure_isolated (turn turn2 : ℕ → Except String Response)
    (j : ℕ) (e : String) (agents : List Agent)
    (hj : turn2 j = .error e) (hoth : ∀ i, i ≠ j → turn2 i = turn i) :
    (ResearchExecutor.runBatch agents turn2).length = agents.length
    ∧ (∀ i, i ≠ j → (ResearchExecutor.runBatch agents turn2).get? i
        = (ResearchExecutor.runBatch agents turn).get? i)
    ∧ (∀ a, agents.get? j = some a →
        (ResearchExecutor.runBatch agents turn2).get? j
          = some ("ERROR in " ++ a.name ++ ": " ++ e))
    ∧ (∀ (cs : ConfigState) (fresh : ℕ) (pool : List Agent) (query : String)
        (m mem : Bool) (ags pl : List Agent) (f' : ℕ),
        ResearchExecutor.prepare_agents none fresh pool m mem
            (TemperatureManager.get_temperature_configs cs m) 3 = .ok (ags, pl, f') →
        ags.length = 3 →
        3 ≤ (TemperatureManager.get_temperature_configs cs m).length →
        ∃ s, ResearchExecutor.execute_concurrent_research none turn2 cs fresh pool
            query m mem = .ok s) := by
  refine ⟨?_, ?_, ?_, ?_⟩
  · simp [ResearchExecutor.runBatch]
  · intro i hne
    rw [ResearchExecutor.runBatch, ResearchExecutor.runBatch,
      List.get?_map, List.get?_map, List.get?_enum]
    cases agents.get? i <;> simp [hoth i hne]
  · intro a ha
    rw [ResearchExecutor.runBatch, List.get?_map, List.get?_enum, ha]
    simp [ResearchExecutor.run_single_agent_with_thread, hj]
  · intro cs fresh pool query m mem ags pl f' hprep hlen hcf
    exact executor_ok_of_prepare_ok turn2 cs fresh pool query m mem ags pl f'
      hprep hlen hcf

/-- Witness for C2: the Balanced worker raising `timeout` while its peers
succeed, inside a full Variation-mode batch. -/
theorem worker_failure_isolated_witness :
    (ResearchExecutor.runBatch variationPool turnBalancedTimeout).get? 1
      = some ("ERROR in " ++ "RESEARCHER_BALANCED" ++ ": " ++ "timeout")
    ∧ (∀ i, i ≠ 1 → (ResearchExecutor.runBatch variationPool turnBalancedTimeout).get? i
        = (ResearchExecutor.runBatch variationPool turnOkAll).get? i)
    ∧ ∃ s, ResearchExecutor.execute_concurrent_research none turnBalancedTimeout
        .unavailable 0 [] "Q" true true = .ok s := by
  have h := worker_failure_isolated turnOkAll turnBalancedTimeout 1 "timeout"
    variationPool rfl
    (fun i hi => by simp [turnBalancedTimeout, hi])
  exact ⟨h.2.2.1 ⟨1, "RESEARCHER_BALANCED", some (6/10), "Balanced analysis",
      ["ModularSearchPlugin", "MemoryPlugin"]⟩ rfl,
    h.2.1,
    h.2.2.2 .unavailable 0 [] "Q" true true variationPool variationPool 3 rfl rfl
      (by decide)⟩

set_option maxRecDepth 100000 in
/-- Counterexample to C6: in a Variation batch where the Balanced worker
(index 1) raises `timeout`, the report never contains `Error: timeout` — the
exception is caught inside the task and the section body is the task's
`ERROR in RESEARCHER_BALANCED: timeout` string (under the Balanced heading). -/
theorem failed_worker_section_not_error_colon :
    strContains (execute_parallel_research none turnBalancedTimeout
        (.available varCfgLit) 0 [] true "Q") "Error: timeout" = false
    ∧ strContains (execute_parallel_research none turnBalancedTimeout
        (.available varCfgLit) 0 [] true "Q")
        "ERROR in RESEARCHER_BALANCED: timeout" = true
    ∧ strContains (execute_parallel_research none turnBalancedTimeout
        (.available varCfgLit) 0 [] true "Q")
        "### 🌡️ Temperature 0.6 - Balanced analysis" = true := by
  refine ⟨?_, ?_, ?_⟩ <;> decide

/-- C6 (amended): when worker `i`'s turn raises with text `t`, the raised
exception is caught inside that worker's task, so the `i`-th section of the
synthesized Variation report carries the worker's profile heading and the body
`ERROR in <agentName>: <t>` (not `Error: <t>`, which is emitted only for an
exception object that reaches synthesis uncaught), while the other sections
contain their normal extracted content. -/
theorem failed_worker_section_amended (k0 k1 k2 : TempConfig) (a0 a1 a2 : Agent)
    (turn : ℕ → Except String Response) (t q : String) (pc : Option ProjectCfg)
    (ht : turn 1 = .error t) :
    ResearchExecutor.synthesize_parts
        ((ResearchExecutor.runBatch [a0, a1, a2] turn).map SynthInput.txt)
        [k0, k1, k2] q true pc
      = some (ResearchExecutor.synthPreamble true q
          ++ ResearchExecutor.workerBlock true k0 1
              (SynthInput.txt (ResearchExecutor.run_single_agent_with_thread a0 (turn 0)))
          ++ ["### 🌡️ Temperature " ++ optTempStr k1.temp ++ " - " ++ k1.approach,
              "**Approach**: " ++ k1.approach,
              "**Research Results**:",
              "ERROR in " ++ a1.name ++ ": " ++ t,
              ""]
          ++ ResearchExecutor.workerBlock true k2 3
              (SynthInput.txt (ResearchExecutor.run_single_agent_with_thread a2 (turn 2)))
          ++ ResearchExecutor.synthTrailer true [k0, k1, k2] pc) := by
  have hbatch : ResearchExecutor.runBatch [a0, a1, a2] turn
      = [ResearchExecutor.run_single_agent_with_thread a0 (turn 0),
         ResearchExecutor.run_single_agent_with_thread a1 (turn 1),
         ResearchExecutor.run_single_agent_with_thread a2 (turn 2)] := rfl
  have hne : ("ERROR in " ++ a1.name ++ ": " ++ t) ≠ "" :=
    append_ne_empty_of_left ("ERROR in " ++ a1.name ++ ": ") t (by
      rw [String.length_append, String.length_append]
      have h9 : ("ERROR in " : String).length = 9 := rfl
      omega)
  have hmid : ResearchExecutor.workerBlock true k1 2
      (SynthInput.txt ("ERROR in " ++ a1.name ++ ": " ++ t))
      = ["### 🌡️ Temperature " ++ optTempStr k1.temp ++ " - " ++ k1.approach,
         "**Approach**: " ++ k1.approach,
         "**Research Results**:",
         "ERROR in " ++ a1.name ++ ": " ++ t,
         ""] := by
    simp [ResearchExecutor.workerBlock, hne]
  have hrun : ResearchExecutor.run_single_agent_with_thread a1 (turn 1)
      = "ERROR in " ++ a1.name ++ ": " ++ t := by
    rw [ht]
    rfl
  rw [hbatch, hrun]
  simp only [List.map_cons, List.map_nil, ResearchExecutor.synthesize_parts,
    synthBlocks_three true [k0, k1, k2] k0 k1 k2 _ _ _ rfl rfl rfl]
  simp [hmid, List.append_assoc]

/-- Witness for C6 (amended): the default Variation profiles with the
Balanced worker timing out. -/
theorem failed_worker_section_amended_witness :
    ResearchExecutor.synthesize_parts
        ((ResearchExecutor.runBatch variationPool turnBalancedTimeout).map SynthInput.txt)
        [⟨some (2/10), "Conservative detailed analysis", "CONSERVATIVE"⟩,
         ⟨some (6/10), "Balanced analysis", "BALANCED"⟩,
         ⟨some (9/10), "Creative divergent thinking", "CREATIVE"⟩] "Q" true none
      = some (ResearchExecutor.synthPreamble true "Q"
          ++ ResearchExecutor.workerBlock true
              ⟨some (2/10), "Conservative detailed analysis", "CONSERVATIVE"⟩ 1
              (SynthInput.txt (ResearchExecutor.run_single_agent_with_thread
                ⟨0, "RESEARCHER_CONSERVATIVE", some (2/10),
                 "Conservative detailed analysis",
                 ["ModularSearchPlugin", "MemoryPlugin"]⟩ (turnBalancedTimeout 0)))
          ++ ["### 🌡️ Temperature " ++ optTempStr (some (6/10)) ++ " - " ++ "Balanced analysis",
              "**Approach**: " ++ "Balanced analysis",
              "**Research Results**:",
              "ERROR in " ++ "RESEARCHER_BALANCED" ++ ": " ++ "timeout",
              ""]
          ++ ResearchExecutor.workerBlock true
              ⟨some (9/10), "Creative divergent thinking", "CREATIVE"⟩ 3
              (SynthInput.txt (ResearchExecutor.run_single_agent_with_thread
                ⟨2, "RESEARCHER_CREATIVE", some (9/10),
                 "Creative divergent thinking",
                 ["ModularSearchPlugin", "MemoryPlugin"]⟩ (turnBalancedTimeout 2)))
          ++ ResearchExecutor.synthTrailer true
              [⟨some (2/10), "Conservative detailed analysis", "CONSERVATIVE"⟩,
               ⟨some (6/10), "Balanced analysis", "BALANCED"⟩,
               ⟨some (9/10), "Creative divergent thinking", "CREATIVE"⟩] none) :=
  failed_worker_section_amended
    ⟨some (2/10), "Conservative detailed analysis", "CONSERVATIVE"⟩
    ⟨some (6/10), "Balanced analysis", "BALANCED"⟩
    ⟨some (9/10), "Creative divergent thinking", "CREATIVE"⟩
    ⟨0, "RESEARCHER_CONSERVATIVE", some (2/10), "Conservative detailed analysis",
     ["ModularSearchPlugin", "MemoryPlugin"]⟩
    ⟨1, "RESEARCHER_BALANCED", some (6/10), "Balanced analysis",
     ["ModularSearchPlugin", "MemoryPlugin"]⟩
    ⟨2, "RESEARCHER_CREATIVE", some (9/10), "Creative divergent thinking",
     ["ModularSearchPlugin", "MemoryPlugin"]⟩
    turnBalancedTimeout "timeout" "Q" none rfl

end DeepResearch
